import Mathlib

/-
Verification of the chat-backend service (main.py): a shallow embedding of
its data model and handlers, with theorems settling the specified properties.

Modelling conventions:
- The Firestore document store is a pair of association lists keyed by
  (uid, date): one for the users/{uid}/user_sessions/{date} documents and
  one for users/{uid}/chat_history/{date} documents.
- Firestore set(..., merge=True) with firestore.ArrayUnion follows the
  documented ArrayUnion semantics: elements not already present are
  appended at the end, elements already present are not added again.
- The clock (get_ist_time / get_date_str) is threaded in as explicit
  `today` and `now` string parameters.
- External collaborators are oracles: auth.verify_id_token is a function
  String -> Option String (none models a verification exception), and the
  OpenAI completion call is a function List Msg -> Except String String
  (Except.error models a raised exception, which Flask surfaces as an
  unstructured server error).
- JSON bodies and query strings carry Option String fields: none models an
  absent (or null) field; some "" models a present-but-empty string, which
  Python truthiness treats like an absent one.
-/

namespace GptFirebase

/-- One entry of the user_messages array in a user_sessions document
(main.py, save_user_session lines 73-77). -/
structure UserMsgEntry where
  session_id : String
  user_message : String
  timestamp : String
deriving DecidableEq, Repr

/-- One entry of the chats array in a chat_history document
(main.py, save_chat_history lines 86-91). -/
structure ChatEntry where
  session_id : String
  user_message : String
  bot_message : String
  timestamp : String
deriving DecidableEq, Repr

/-- A users/{uid}/user_sessions/{date} document. The user_messages field is
optional: a document written by other means may lack it. -/
structure UserSessionDoc where
  date : String
  user_messages : Option (List UserMsgEntry)
deriving DecidableEq, Repr

/-- A users/{uid}/chat_history/{date} document. The chats field is optional:
a document may exist without it (read paths use .get("chats", [])). -/
structure ChatHistoryDoc where
  date : String
  chats : Option (List ChatEntry)
deriving DecidableEq, Repr

/-- The document store: bindings from (uid, date) keys to documents, for the
two per-user subcollections used by main.py. -/
structure Store where
  user_sessions : List ((String × String) × UserSessionDoc)
  chat_history : List ((String × String) × ChatHistoryDoc)
deriving DecidableEq, Repr

/-- Document lookup by key: the .document(...).get() read path. -/
def lookupAssoc {α : Type} : List ((String × String) × α) → (String × String) → Option α
  | [], _ => none
  | p :: rest, k => if p.1 = k then some p.2 else lookupAssoc rest k

/-- Document write by key: replace the binding if present, create it
otherwise (the .document(...).set(..., merge=True) write path at the
document level). -/
def setAssoc {α : Type} : List ((String × String) × α) → (String × String) → α → List ((String × String) × α)
  | [], k, v => [(k, v)]
  | p :: rest, k, v => if p.1 = k then (k, v) :: rest else p :: setAssoc rest k v

/-- firestore.ArrayUnion semantics: each new element is appended at the end
of the array unless an equal element is already present. -/
def arrayUnion {α : Type} [DecidableEq α] (old new : List α) : List α :=
  new.foldl (fun acc x => if x ∈ acc then acc else acc ++ [x]) old

/-- A role-tagged message of the model conversation. -/
structure Msg where
  role : String
  content : String
deriving DecidableEq, Repr

/-- The fixed system prompt (main.py lines 43-56). -/
def system_prompt : String :=
  "\nतुम्ही \u0027मनोदर्पण\u0027 मानसिक आरोग्य सहाय्यक आहात. तुमचा उद्देश वापरकर्त्यांची मानसिक स्थिती समजून त्यांना आधार देणे आहे. तुमचे उत्तर नेहमी मराठीत असले पाहिजे.\n\nYou are a friendly, compassionate mental health assistant designed to support users after they complete tests for depression and anxiety. Your primary tasks are to monitor their emotional well-being, provide thoughtful feedback, and offer helpful suggestions when needed.\n\nYour Responsibilities:\n1️ Daily Check-ins\n2️ Emotional Analysis\n3️ Providing Support\n4️ Encouraging Positive Habits\n5️ Recognizing Urgent Situations\n\nAlso give all the responses in Marathi language.\n"

/-- save_user_session (main.py lines 68-78): merge-write into the
users/{uid}/user_sessions/{today} document, ArrayUnion-appending one
{session_id, user_message, timestamp} entry. -/
def save_user_session (uid session_id user_message today now : String) (s : Store) : Store :=
  let key := (uid, today)
  let entry : UserMsgEntry := { session_id := session_id, user_message := user_message, timestamp := now }
  let newDoc : UserSessionDoc :=
    match lookupAssoc s.user_sessions key with
    | none => { date := today, user_messages := some (arrayUnion [] [entry]) }
    | some doc => { date := today, user_messages := some (arrayUnion (doc.user_messages.getD []) [entry]) }
  { s with user_sessions := setAssoc s.user_sessions key newDoc }

/-- save_chat_history (main.py lines 81-92): merge-write into the
users/{uid}/chat_history/{today} document, ArrayUnion-appending one
{session_id, user_message, bot_message, timestamp} entry. -/
def save_chat_history (uid session_id user_message bot_message today now : String) (s : Store) : Store :=
  let key := (uid, today)
  let entry : ChatEntry :=
    { session_id := session_id, user_message := user_message
      bot_message := bot_message, timestamp := now }
  let newDoc : ChatHistoryDoc :=
    match lookupAssoc s.chat_history key with
    | none => { date := today, chats := some (arrayUnion [] [entry]) }
    | some doc => { date := today, chats := some (arrayUnion (doc.chats.getD []) [entry]) }
  { s with chat_history := setAssoc s.chat_history key newDoc }

/-- get_session_history (main.py lines 95-107): read the chat_history
document of the current day, start from the system prompt, and append a
user/assistant pair for every stored chat whose session_id matches. -/
def get_session_history (uid session_id today : String) (s : Store) : List Msg :=
  let history : List Msg := [{ role := "system", content := system_prompt }]
  match lookupAssoc s.chat_history (uid, today) with
  | none => history
  | some chat_doc =>
      (chat_doc.chats.getD []).foldl
        (fun h c =>
          if c.session_id = session_id then
            h ++ [{ role := "user", content := c.user_message },
                  { role := "assistant", content := c.bot_message }]
          else h)
        history

/-- The request headers consulted by verify_token. -/
structure Headers where
  xuid : Option String
  authorization : Option String
deriving DecidableEq, Repr

/-- The bearer-credential branch of verify_token (main.py lines 117-125):
require an Authorization header starting with "Bearer ", extract the token
as Python auth_header.split("Bearer ")[1] does, and verify it through the
identity-service oracle. -/
def bearer_uid (verifyIdToken : String → Option String) (req : Headers) : Option String :=
  match req.authorization with
  | none => none
  | some auth_header =>
      if auth_header.startsWith "Bearer " then
        verifyIdToken (((auth_header.splitOn "Bearer ").drop 1).headD "")
      else none

/-- verify_token (main.py lines 111-125): a non-empty X-UID header wins as a
test override; otherwise the bearer-credential path decides. An absent or
empty X-UID header is falsy in Python and falls through. -/
def verify_token (verifyIdToken : String → Option String) (req : Headers) : Option String :=
  match req.xuid with
  | some test_uid => if test_uid ≠ "" then some test_uid else bearer_uid verifyIdToken req
  | none => bearer_uid verifyIdToken req

/-- Python value-or-default via the or operator on strings: an absent field
or a present-but-empty string both yield the default (main.py lines 135
and 157). -/
def truthyOr (v : Option String) (fresh : String) : String :=
  match v with
  | some str => if str ≠ "" then str else fresh
  | none => fresh

/-- The JSON body of POST /chat. -/
structure ChatBody where
  session_id : Option String
  message : Option String
deriving DecidableEq, Repr

/-- Outcome of the POST /chat handler: 401, 400, an uncaught
completion-service exception, or 200 with {response, session_id}. -/
inductive ChatResp where
  | unauthorized : ChatResp
  | badRequest : ChatResp
  | upstreamError : String → ChatResp
  | ok : String → String → ChatResp
deriving DecidableEq, Repr

/-- The POST /chat handler (main.py lines 128-148). freshId stands for the
str(uuid.uuid4()) drawn when the body supplies no truthy session_id. -/
def chat (verifyIdToken : String → Option String)
    (getResponse : List Msg → Except String String)
    (freshId today now : String) (req : Headers) (body : ChatBody) (s : Store) :
    ChatResp × Store :=
  match verify_token verifyIdToken req with
  | none => (ChatResp.unauthorized, s)
  | some uid =>
      let session_id := truthyOr body.session_id freshId
      match body.message with
      | none => (ChatResp.badRequest, s)
      | some user_message =>
          if user_message = "" then (ChatResp.badRequest, s)
          else
            let s1 := save_user_session uid session_id user_message today now s
            let conversation := get_session_history uid session_id today s1
              ++ [{ role := "user", content := user_message }]
            match getResponse conversation with
            | Except.error e => (ChatResp.upstreamError e, s1)
            | Except.ok bot_response =>
                (ChatResp.ok bot_response session_id,
                 save_chat_history uid session_id user_message bot_response today now s1)

/-- One display item of the GET /get_chat_history response. -/
structure HistItem where
  sender : String
  text : String
deriving DecidableEq, Repr

/-- Outcome of the GET /get_chat_history handler. -/
inductive HistResp where
  | unauthorized : HistResp
  | ok : List HistItem → HistResp
deriving DecidableEq, Repr

/-- The projection of one stored chat entry into a display item (main.py
line 165): a user item when user_message is truthy, else a bot item. -/
def projectEntry (c : ChatEntry) : HistItem :=
  if c.user_message ≠ "" then { sender := "user", text := c.user_message }
  else { sender := "bot", text := c.bot_message }

/-- The GET /get_chat_history handler (main.py lines 151-169). The handler
performs no writes, so the store is returned unchanged. -/
def get_chat_history (verifyIdToken : String → Option String)
    (today : String) (req : Headers) (dateParam : Option String) (s : Store) :
    HistResp × Store :=
  match verify_token verifyIdToken req with
  | none => (HistResp.unauthorized, s)
  | some uid =>
      let date_str := truthyOr dateParam today
      match lookupAssoc s.chat_history (uid, date_str) with
      | none => (HistResp.ok [], s)
      | some chat_doc => (HistResp.ok ((chat_doc.chats.getD []).map projectEntry), s)

/-- The chats array stored for (uid, date): empty when the document is
absent or lacks the chats field. -/
def storedChats (s : Store) (uid date : String) : List ChatEntry :=
  ((lookupAssoc s.chat_history (uid, date)).bind (fun d => d.chats)).getD []

/-- The user_messages array stored for (uid, date): empty when the document
is absent or lacks the user_messages field. -/
def storedUserMessages (s : Store) (uid date : String) : List UserMsgEntry :=
  ((lookupAssoc s.user_sessions (uid, date)).bind (fun d => d.user_messages)).getD []

/-- A freshly written binding is found back by lookup. -/
theorem lookupAssoc_setAssoc {α : Type} (m : List ((String × String) × α))
    (k : String × String) (v : α) :
    lookupAssoc (setAssoc m k v) k = some v := by
  induction m with
  | nil => simp [setAssoc, lookupAssoc]
  | cons p rest ih =>
      by_cases hp : p.1 = k
      · simp [setAssoc, lookupAssoc, hp]
      · simp [setAssoc, lookupAssoc, hp, ih]

/-- ArrayUnion of a single element, stated as a conditional append. -/
theorem arrayUnion_single {α : Type} [DecidableEq α] (l : List α) (x : α) :
    arrayUnion l [x] = if x ∈ l then l else l ++ [x] := rfl

/-- The element handed to a single-element ArrayUnion is in the result. -/
theorem mem_arrayUnion_self {α : Type} [DecidableEq α] (l : List α) (x : α) :
    x ∈ arrayUnion l [x] := by
  rw [arrayUnion_single]
  by_cases hx : x ∈ l
  · simp [hx]
  · simp [hx]

/-- The session-filtering loop of get_session_history, characterised as
filter-then-expand over the stored entries. -/
theorem foldl_matching_append (session_id : String) (l : List ChatEntry) (acc : List Msg) :
    l.foldl
        (fun h c =>
          if c.session_id = session_id then
            h ++ [{ role := "user", content := c.user_message },
                  { role := "assistant", content := c.bot_message }]
          else h)
        acc
      = acc ++ (l.filter (fun c => decide (c.session_id = session_id))).flatMap
          (fun c => [{ role := "user", content := c.user_message },
                     { role := "assistant", content := c.bot_message }]) := by
  induction l generalizing acc with
  | nil => simp
  | cons c rest ih =>
      simp only [List.foldl_cons, List.filter_cons]
      by_cases hc : c.session_id = session_id
      · simp [hc, ih]
      · simp [hc, ih]

/-- C2: history assembly returns exactly one system-instruction entry first,
then, for every stored entry whose session_id matches and in stored order,
the user message with role user followed by the bot message with role
assistant; non-matching entries contribute nothing. -/
theorem get_session_history_shape (uid session_id today : String) (s : Store) :
    get_session_history uid session_id today s =
      { role := "system", content := system_prompt } ::
        ((storedChats s uid today).filter (fun c => decide (c.session_id = session_id))).flatMap
          (fun c => [{ role := "user", content := c.user_message },
                     { role := "assistant", content := c.bot_message }]) := by
  unfold get_session_history storedChats
  cases h : lookupAssoc s.chat_history (uid, today) with
  | none => simp [h]
  | some chat_doc => simp [h, foldl_matching_append]

/-- C6: history assembly reads only the chat_history document stored under
the current day key; two stores agreeing on that document assemble the same
history, whatever either store holds under other dates. -/
theorem get_session_history_today_only (uid session_id today : String) (s t : Store)
    (h : lookupAssoc s.chat_history (uid, today) = lookupAssoc t.chat_history (uid, today)) :
    get_session_history uid session_id today s = get_session_history uid session_id today t := by
  unfold get_session_history
  rw [h]

def emptyStore : Store := { user_sessions := [], chat_history := [] }

def priorDayStore : Store :=
  { user_sessions := []
    chat_history := [(("u1", "2025-01-01"),
      { date := "2025-01-01"
        chats := some [{ session_id := "s1", user_message := "old"
                         bot_message := "reply", timestamp := "t0" }] })] }

theorem get_session_history_today_only_witness :
    get_session_history "u1" "s1" "2025-01-02" priorDayStore
      = get_session_history "u1" "s1" "2025-01-02" emptyStore :=
  get_session_history_today_only "u1" "s1" "2025-01-02" priorDayStore emptyStore (by decide)

/-- C7: when identity resolution fails, both handlers answer 401 and the
store is left exactly as it was. -/
theorem unauthorized_no_mutation
    (verifyIdToken : String → Option String) (getResponse : List Msg → Except String String)
    (freshId today now : String) (req : Headers) (body : ChatBody)
    (dateParam : Option String) (s : Store)
    (hfail : verify_token verifyIdToken req = none) :
    chat verifyIdToken getResponse freshId today now req body s = (ChatResp.unauthorized, s) ∧
    get_chat_history verifyIdToken today req dateParam s = (HistResp.unauthorized, s) := by
  unfold chat get_chat_history
  rw [hfail]
  exact ⟨rfl, rfl⟩

theorem unauthorized_no_mutation_witness :
    chat (fun _ => none) (fun _ => Except.ok "r") "f" "2025-01-01" "t0"
        { xuid := none, authorization := none } { session_id := none, message := some "hi" }
        emptyStore
      = (ChatResp.unauthorized, emptyStore) ∧
    get_chat_history (fun _ => none) "2025-01-01" { xuid := none, authorization := none }
        none emptyStore
      = (HistResp.unauthorized, emptyStore) :=
  unauthorized_no_mutation (fun _ => none) (fun _ => Except.ok "r") "f" "2025-01-01" "t0"
    { xuid := none, authorization := none } { session_id := none, message := some "hi" }
    none emptyStore rfl

/-- C8: with identity resolved, an absent or empty message field makes
POST /chat answer 400 with the store untouched. -/
theorem empty_message_bad_request
    (verifyIdToken : String → Option String) (getResponse : List Msg → Except String String)
    (freshId today now : String) (req : Headers) (body : ChatBody) (s : Store) (uid : String)
    (hauth : verify_token verifyIdToken req = some uid)
    (hm : body.message = none ∨ body.message = some "") :
    chat verifyIdToken getResponse freshId today now req body s = (ChatResp.badRequest, s) := by
  unfold chat
  rw [hauth]
  rcases hm with hm | hm <;> simp [hm]

theorem empty_message_bad_request_witness :
    chat (fun _ => none) (fun _ => Except.ok "r") "f" "2025-01-01" "t0"
        { xuid := some "u1", authorization := none } { session_id := some "s1", message := some "" }
        emptyStore
      = (ChatResp.badRequest, emptyStore) :=
  empty_message_bad_request (fun _ => none) (fun _ => Except.ok "r") "f" "2025-01-01" "t0"
    { xuid := some "u1", authorization := none } { session_id := some "s1", message := some "" }
    emptyStore "u1" rfl (Or.inr rfl)

/-- C10: a chat_history document that exists without a chats field is read
as empty by both paths: history assembly yields only the system entry, and
GET /get_chat_history answers 200 with an empty history. -/
theorem read_paths_total_without_chats_field
    (verifyIdToken : String → Option String) (uid session_id today : String)
    (req : Headers) (dateParam : Option String) (s : Store) (d1 d2 : ChatHistoryDoc)
    (hauth : verify_token verifyIdToken req = some uid)
    (h1 : lookupAssoc s.chat_history (uid, today) = some d1)
    (hc1 : d1.chats = none)
    (h2 : lookupAssoc s.chat_history (uid, truthyOr dateParam today) = some d2)
    (hc2 : d2.chats = none) :
    get_session_history uid session_id today s = [{ role := "system", content := system_prompt }] ∧
    get_chat_history verifyIdToken today req dateParam s = (HistResp.ok [], s) := by
  constructor
  · simp [get_session_history, h1, hc1]
  · simp [get_chat_history, hauth, h2, hc2]

def noChatsStore : Store :=
  { user_sessions := []
    chat_history := [(("u1", "2025-01-01"), { date := "2025-01-01", chats := none })] }

theorem read_paths_total_without_chats_field_witness :
    get_session_history "u1" "s1" "2025-01-01" noChatsStore
        = [{ role := "system", content := system_prompt }] ∧
    get_chat_history (fun _ => none) "2025-01-01" { xuid := some "u1", authorization := none }
        none noChatsStore
        = (HistResp.ok [], noChatsStore) :=
  read_paths_total_without_chats_field (fun _ => none) "u1" "s1" "2025-01-01"
    { xuid := some "u1", authorization := none } none noChatsStore
    { date := "2025-01-01", chats := none } { date := "2025-01-01", chats := none }
    rfl (by decide) rfl (by decide) rfl

/-- The user-message entry just saved is present in the stored array. -/
theorem save_user_session_mem (uid session_id user_message today now : String) (s : Store) :
    ({ session_id := session_id, user_message := user_message, timestamp := now } : UserMsgEntry)
      ∈ storedUserMessages (save_user_session uid session_id user_message today now s) uid today := by
  unfold save_user_session storedUserMessages
  cases h : lookupAssoc s.user_sessions (uid, today) with
  | none => simp [h, lookupAssoc_setAssoc, mem_arrayUnion_self]
  | some doc => simp [h, lookupAssoc_setAssoc, mem_arrayUnion_self]

/-- C4: when the completion call raises after the user-message append
succeeded, the handler surfaces the error, the daily message log keeps the
appended user message, and the chat_history collection is untouched: no
turn entry is written and nothing is rolled back. -/
theorem completion_failure_leaves_orphaned_message
    (verifyIdToken : String → Option String) (getResponse : List Msg → Except String String)
    (freshId today now : String) (req : Headers) (body : ChatBody) (s : Store)
    (uid m e : String)
    (hauth : verify_token verifyIdToken req = some uid)
    (hm : body.message = some m) (hm2 : m ≠ "")
    (hfail : ∀ conv, getResponse conv = Except.error e) :
    chat verifyIdToken getResponse freshId today now req body s
        = (ChatResp.upstreamError e,
           save_user_session uid (truthyOr body.session_id freshId) m today now s) ∧
    ({ session_id := truthyOr body.session_id freshId, user_message := m, timestamp := now } : UserMsgEntry)
        ∈ storedUserMessages
            (save_user_session uid (truthyOr body.session_id freshId) m today now s) uid today ∧
    (save_user_session uid (truthyOr body.session_id freshId) m today now s).chat_history
        = s.chat_history := by
  refine ⟨?_, save_user_session_mem uid (truthyOr body.session_id freshId) m today now s, rfl⟩
  unfold chat
  rw [hauth, hm]
  simp [hm2, hfail]

theorem completion_failure_leaves_orphaned_message_witness :
    chat (fun _ => some "u1") (fun _ => Except.error "boom") "f" "2025-01-01" "t0"
        { xuid := some "u1", authorization := none }
        { session_id := some "s1", message := some "hello" } emptyStore
      = (ChatResp.upstreamError "boom",
         save_user_session "u1" (truthyOr (some "s1") "f") "hello" "2025-01-01" "t0" emptyStore) ∧
    ({ session_id := truthyOr (some "s1") "f", user_message := "hello", timestamp := "t0" } : UserMsgEntry)
      ∈ storedUserMessages
          (save_user_session "u1" (truthyOr (some "s1") "f") "hello" "2025-01-01" "t0" emptyStore)
          "u1" "2025-01-01" ∧
    (save_user_session "u1" (truthyOr (some "s1") "f") "hello" "2025-01-01" "t0" emptyStore).chat_history
      = emptyStore.chat_history :=
  completion_failure_leaves_orphaned_message (fun _ => some "u1") (fun _ => Except.error "boom")
    "f" "2025-01-01" "t0" { xuid := some "u1", authorization := none }
    { session_id := some "s1", message := some "hello" } emptyStore
    "u1" "hello" "boom" rfl rfl (by decide) (fun _ => rfl)

/-- C3 as stated is false: a request body that provides session_id as the
empty string gets a freshly generated identifier back, not the supplied
value — Python truthiness treats the provided empty string as absent. -/
theorem chat_session_id_counterexample :
    (chat (fun _ => none) (fun _ => Except.ok "reply") "fresh-id" "2025-01-01" "t0"
        { xuid := some "u1", authorization := none }
        { session_id := some "", message := some "hi" } emptyStore).1
      = ChatResp.ok "reply" "fresh-id" ∧
    ("fresh-id" : String) ≠ "" := ⟨rfl, by decide⟩

/-- C3 amended: with identity resolved, a non-empty message, and a
successful completion, the 200 response carries the client-supplied
session_id when the body provides a non-empty one, and otherwise (absent,
null, or empty) the freshly generated identifier, which is distinct from
every previously issued identifier whenever the generator draw is fresh. -/
theorem chat_session_id_resolution
    (verifyIdToken : String → Option String) (getResponse : List Msg → Except String String)
    (freshId today now : String) (req : Headers) (body : ChatBody) (s : Store)
    (uid m bot : String) (prior : List String)
    (hauth : verify_token verifyIdToken req = some uid)
    (hm : body.message = some m) (hm2 : m ≠ "")
    (hresp : ∀ conv, getResponse conv = Except.ok bot)
    (hfresh : freshId ∉ prior) :
    (chat verifyIdToken getResponse freshId today now req body s).1
        = ChatResp.ok bot (truthyOr body.session_id freshId) ∧
    (∀ sid, body.session_id = some sid → sid ≠ "" → truthyOr body.session_id freshId = sid) ∧
    ((body.session_id = none ∨ body.session_id = some "") →
        truthyOr body.session_id freshId = freshId ∧ freshId ∉ prior) := by
  refine ⟨?_, ?_, ?_⟩
  · unfold chat
    rw [hauth, hm]
    simp [hm2, hresp]
  · intro sid hs hns
    rw [hs]
    simp [truthyOr, hns]
  · rintro (hs | hs) <;> rw [hs] <;> exact ⟨rfl, hfresh⟩

theorem chat_session_id_resolution_witness :
    (chat (fun _ => some "u1") (fun _ => Except.ok "reply") "fresh-id" "2025-01-01" "t0"
        { xuid := some "u1", authorization := none }
        { session_id := some "s1", message := some "hi" } emptyStore).1
      = ChatResp.ok "reply" (truthyOr (some "s1") "fresh-id") ∧
    (∀ sid, (some "s1" : Option String) = some sid → sid ≠ "" →
        truthyOr (some "s1") "fresh-id" = sid) ∧
    (((some "s1" : Option String) = none ∨ (some "s1" : Option String) = some "") →
        truthyOr (some "s1") "fresh-id" = "fresh-id" ∧ "fresh-id" ∉ (["old-id"] : List String)) :=
  chat_session_id_resolution (fun _ => some "u1") (fun _ => Except.ok "reply")
    "fresh-id" "2025-01-01" "t0" { xuid := some "u1", authorization := none }
    { session_id := some "s1", message := some "hi" } emptyStore
    "u1" "hi" "reply" ["old-id"] rfl rfl (by decide) (fun _ => rfl) (by decide)

def c5Entry : ChatEntry :=
  { session_id := "s1", user_message := "hi", bot_message := "yo", timestamp := "t1" }

def c5Store : Store :=
  { user_sessions := []
    chat_history := [(("u1", "2025-01-01"), { date := "2025-01-01", chats := some [c5Entry] })] }

/-- C5 as stated is false: saving a chat turn equal to an entry already
stored for the day leaves the array unchanged under ArrayUnion — the
sequence does not grow by one. -/
theorem append_grows_by_one_counterexample :
    storedChats c5Store "u1" "2025-01-01" = [c5Entry] ∧
    storedChats (save_chat_history "u1" "s1" "hi" "yo" "2025-01-01" "t1" c5Store)
        "u1" "2025-01-01" = [c5Entry] ∧
    ([c5Entry] : List ChatEntry).length ≠ ([c5Entry] : List ChatEntry).length + 1 := by
  refine ⟨rfl, by decide, by decide⟩

/-- C5 amended: each save operation rewrites the day's array to the
ArrayUnion of the previous array with the one new entry: the new entry is
appended at the end when no equal entry is stored, and the array is left
exactly unchanged when an equal entry is already present; existing entries
are never removed, edited or reordered. -/
theorem append_only_union (uid session_id user_message bot_message today now : String) (s : Store) :
    storedUserMessages (save_user_session uid session_id user_message today now s) uid today
        = arrayUnion (storedUserMessages s uid today)
            [{ session_id := session_id, user_message := user_message, timestamp := now }] ∧
    storedChats (save_chat_history uid session_id user_message bot_message today now s) uid today
        = arrayUnion (storedChats s uid today)
            [{ session_id := session_id, user_message := user_message
               bot_message := bot_message, timestamp := now }] ∧
    (∀ (l : List ChatEntry) (e : ChatEntry),
        arrayUnion l [e] = if e ∈ l then l else l ++ [e]) ∧
    (∀ (l : List UserMsgEntry) (e : UserMsgEntry),
        arrayUnion l [e] = if e ∈ l then l else l ++ [e]) := by
  refine ⟨?_, ?_, fun l e => rfl, fun l e => rfl⟩
  · unfold save_user_session storedUserMessages
    cases h : lookupAssoc s.user_sessions (uid, today) with
    | none => simp [h, lookupAssoc_setAssoc]
    | some doc => simp [h, lookupAssoc_setAssoc]
  · unfold save_chat_history storedChats
    cases h : lookupAssoc s.chat_history (uid, today) with
    | none => simp [h, lookupAssoc_setAssoc]
    | some doc => simp [h, lookupAssoc_setAssoc]

def c9Store : Store :=
  { user_sessions := []
    chat_history := [(("u1", "2025-01-01"),
      { date := "2025-01-01"
        chats := some [{ session_id := "s1", user_message := "hi"
                         bot_message := "yo", timestamp := "t1" }] })] }

/-- C9 as stated is false: a date query parameter that is present but empty
is treated as absent — the handler targets today rather than the supplied
empty-string date, for which no document exists. -/
theorem history_target_date_counterexample :
    (get_chat_history (fun _ => none) "2025-01-01" { xuid := some "u1", authorization := none }
        (some "") c9Store).1
      = HistResp.ok [{ sender := "user", text := "hi" }] ∧
    lookupAssoc c9Store.chat_history ("u1", "") = none ∧
    HistResp.ok [{ sender := "user", text := "hi" }] ≠ HistResp.ok [] := by
  refine ⟨rfl, rfl, by decide⟩

/-- C9 amended: with identity resolved, the target date is the date query
parameter when present and non-empty, and today otherwise; the response is
always 200 with the projection of the target day's stored entries, hence
{history: []} when no document exists for the target date. -/
theorem history_target_date_resolution
    (verifyIdToken : String → Option String) (today : String) (req : Headers)
    (dateParam : Option String) (s : Store) (uid : String)
    (hauth : verify_token verifyIdToken req = some uid) :
    get_chat_history verifyIdToken today req dateParam s
        = (HistResp.ok ((storedChats s uid (truthyOr dateParam today)).map projectEntry), s) ∧
    (∀ d, dateParam = some d → d ≠ "" → truthyOr dateParam today = d) ∧
    ((dateParam = none ∨ dateParam = some "") → truthyOr dateParam today = today) ∧
    (lookupAssoc s.chat_history (uid, truthyOr dateParam today) = none →
        (get_chat_history verifyIdToken today req dateParam s).1 = HistResp.ok []) := by
  refine ⟨?_, ?_, ?_, ?_⟩
  · unfold get_chat_history storedChats
    rw [hauth]
    cases h : lookupAssoc s.chat_history (uid, truthyOr dateParam today) with
    | none => simp [h]
    | some chat_doc => simp [h]
  · intro d hd hnd
    rw [hd]
    simp [truthyOr, hnd]
  · rintro (hd | hd) <;> rw [hd] <;> rfl
  · intro h
    unfold get_chat_history
    rw [hauth]
    simp [h]

theorem history_target_date_resolution_witness :
    get_chat_history (fun _ => none) "2025-01-02" { xuid := some "u1", authorization := none }
        (some "2025-01-01") c9Store
        = (HistResp.ok ((storedChats c9Store "u1" (truthyOr (some "2025-01-01") "2025-01-02")).map
            projectEntry), c9Store) ∧
    (∀ d, (some "2025-01-01" : Option String) = some d → d ≠ "" →
        truthyOr (some "2025-01-01") "2025-01-02" = d) ∧
    (((some "2025-01-01" : Option String) = none ∨ (some "2025-01-01" : Option String) = some "") →
        truthyOr (some "2025-01-01") "2025-01-02" = "2025-01-02") ∧
    (lookupAssoc c9Store.chat_history ("u1", truthyOr (some "2025-01-01") "2025-01-02") = none →
        (get_chat_history (fun _ => none) "2025-01-02" { xuid := some "u1", authorization := none }
            (some "2025-01-01") c9Store).1 = HistResp.ok []) :=
  history_target_date_resolution (fun _ => none) "2025-01-02"
    { xuid := some "u1", authorization := none } (some "2025-01-01") c9Store "u1" rfl

def c1Store : Store :=
  { user_sessions := []
    chat_history := [(("u1", "2025-01-01"),
      { date := "2025-01-01"
        chats := some [{ session_id := "s1", user_message := "hi"
                         bot_message := "hello", timestamp := "t1" }] })] }

/-- C1: the projection written in the source emits a single item per stored
entry — the user item whenever user_message is non-empty — so a stored
entry carrying both messages yields one display item, not the user item
followed by the bot item the specification intends. -/
theorem history_projection_single_item :
    (get_chat_history (fun _ => none) "2025-01-01" { xuid := some "u1", authorization := none }
        none c1Store).1
      = HistResp.ok [{ sender := "user", text := "hi" }] ∧
    HistResp.ok [{ sender := "user", text := "hi" }]
      ≠ HistResp.ok [{ sender := "user", text := "hi" }, { sender := "bot", text := "hello" }] := by
  refine ⟨rfl, by decide⟩

end GptFirebase
